import Mathlib

/-!
Verification of the Lexi (LEX-7) core against its specification.

Shallow embedding of the LEX-7 core components:

* the Mamba-SSM state engine (`src/shared/state/src/lib.rs`):
  `StateManager.register_node`, `update_state`, `compute_next_state`,
  `check_convergence`, `create_snapshot`, `load_snapshot`;
* the BARK protocol envelope and signing (`src/shared/communication/src/lib.rs`):
  `BarkDirective.canonical_message`, `sign`, `verify_signature`;
* the LEX-MON coordinator (`src/nodes/lex-mon/src/main.rs`):
  `determine_analysis_targets`, `synthesize_analysis_response`,
  `generate_council_decision`.

Modelling conventions:

* Rust `f64` values are embedded as `ℚ`.  Every floating-point constant that
  appears in the source (`0.98`, `0.0001`, `0.01`, `0.1`, `0.02`, `-10.0`,
  `10.0`, `1e-6`, decision thresholds `6.0`, `3.0`, `75.0`, `85.0`,
  payload factors `2.9`, `6.5`, `72.0`) is exactly representable or its
  order relations with the relevant thresholds coincide with the `f64` ones,
  so comparisons and the linear recurrence are faithfully reproduced.
* `Uuid` values are embedded as `Nat` where only identity matters (state
  engine node ids, state ids) and as their rendered `String` where the
  textual form enters a byte stream (`BarkDirective.request_id`); a rendered
  UUID is a 36-character string.
* Wall-clock reads (`Utc::now()`) and fresh-UUID draws (`Uuid::new_v4()`) are
  impure in the source; they are passed in explicitly as arguments, so a
  "StateManager instance" corresponds to a manager together with its supply
  of generated ids and timestamps.
* `serde_json::Value` is embedded as the inductive `Json` below; the snapshot
  blob produced by `serde_json::to_string_pretty` is modelled at the level of
  the JSON value tree (`create_snapshot` encodes the ledger into a `Json`
  tree, `load_snapshot` decodes it), abstracting the concrete text layout,
  which round-trips exactly for finite values.
-/

/-- A JSON value (`serde_json::Value`), with numbers embedded as `ℚ`. -/
inductive Json where
  | null : Json
  | bool : Bool → Json
  | num : ℚ → Json
  | str : String → Json
  | arr : List Json → Json
  | obj : List (String × Json) → Json

namespace StateEngine

/-- The `StateVector` of `src/shared/state/src/lib.rs`: the persistent state
vector `h_t`.  `node_id`/`state_id` are UUIDs embedded as `Nat`,
`timestamp` a UTC instant embedded as `Int`. -/
structure StateVector where
  node_id : Nat
  timestamp : Int
  state_data : List ℚ
  hidden_state : List ℚ
  control_input : List ℚ
  state_id : Nat
deriving DecidableEq, Repr

/-- The `TransitionMatrix` (the LxL matrix A). -/
structure TransitionMatrix where
  matrix : List (List ℚ)
  size : Nat
deriving DecidableEq, Repr

/-- The `ControlMatrix` (the LxM matrix B). -/
structure ControlMatrix where
  matrix : List (List ℚ)
  input_size : Nat
  state_size : Nat
deriving DecidableEq, Repr

/-- The `NodeState`: per-node deterministic state. -/
structure NodeState where
  node_type : String
  current_state : StateVector
  transition_matrix : TransitionMatrix
  control_matrix : ControlMatrix
  last_update : Int
  convergence_threshold : ℚ
  temperature : ℚ
deriving DecidableEq, Repr

/-- The `StateLedger`: the `states` HashMap is embedded as an association list
keyed by the node UUID (first match wins on lookup, insertion conses). -/
structure StateLedger where
  states : List (Nat × NodeState)
  state_history : List StateVector
  immutable_ledger : List StateVector
deriving DecidableEq, Repr

/-- Lookup in the embedded HashMap (`states.get(&node_id)`). -/
def assocLookup (k : Nat) : List (Nat × NodeState) → Option NodeState
  | [] => none
  | (k1, v) :: rest => if k1 = k then some v else assocLookup k rest

/-- In-place mutation of an existing entry (`states.get_mut(&node_id)`
followed by field assignment). -/
def assocUpdate (k : Nat) (v : NodeState) : List (Nat × NodeState) → List (Nat × NodeState)
  | [] => []
  | (k1, v1) :: rest =>
      if k1 = k then (k1, v) :: rest else (k1, v1) :: assocUpdate k v rest

/-- The `StateManager::new()`: empty ledger. -/
def emptyLedger : StateLedger :=
  { states := [], state_history := [], immutable_ledger := [] }

/-- The `create_deterministic_transition_matrix`: identity-like matrix with
`matrix[i][i] = 0.98 + i * 0.0001` and `matrix[i][i+1] = 0.01 * (i+1)`
(the `i + 1 < size` guard is implied by the column range). -/
def create_deterministic_transition_matrix (size : Nat) : TransitionMatrix :=
  { matrix :=
      (List.range size).map (fun i =>
        (List.range size).map (fun j =>
          if j = i then 98/100 + (i : ℚ) * (1/10000)
          else if j = i + 1 then (1/100) * ((i : ℚ) + 1)
          else 0)),
    size := size }

/-- The `create_control_matrix`: `matrix[i][i] = 0.1` on the (in-bounds) diagonal,
`matrix[i][j] = 0.02 * ((i + j) / (state_size + input_size))` off it. -/
def create_control_matrix (state_size input_size : Nat) : ControlMatrix :=
  { matrix :=
      (List.range state_size).map (fun i =>
        (List.range input_size).map (fun j =>
          if i = j then 1/10
          else (2/100) * (((i : ℚ) + (j : ℚ)) / ((state_size : ℚ) + (input_size : ℚ))))),
    input_size := input_size,
    state_size := state_size }

/-- The `StateManager::register_node`.  The two generated UUIDs (`node_id`,
the initial `state_id`) and the two `Utc::now()` reads (which coincide up to
nanoseconds; a single instant `now` is passed) are explicit arguments.
The Rust function always returns `Ok(node_id)`. -/
def register_node (L : StateLedger) (node_type : String)
    (state_size input_size : Nat) (node_id state_id : Nat) (now : Int) :
    StateLedger × Nat :=
  let transition_matrix := create_deterministic_transition_matrix state_size
  let control_matrix := create_control_matrix state_size input_size
  let initial_state : StateVector :=
    { node_id := node_id, timestamp := now,
      state_data := List.replicate state_size 0,
      hidden_state := List.replicate state_size 0,
      control_input := List.replicate input_size 0,
      state_id := state_id }
  let node_state : NodeState :=
    { node_type := node_type, current_state := initial_state,
      transition_matrix := transition_matrix, control_matrix := control_matrix,
      last_update := now, convergence_threshold := 1/1000000, temperature := 0 }
  ({ L with states := (node_id, node_state) :: L.states }, node_id)

/-- The `f64::clamp(lo, hi)` on a finite value. -/
def rustClamp (x lo hi : ℚ) : ℚ :=
  if x < lo then lo else if x > hi then hi else x

/-- The `compute_next_state`: `h_t = A * h_(t-1) + B * u_t`, each component
then clamped to `[-10.0, 10.0]`.  Out-of-range accesses on `B` are guarded
in the source exactly as here; `A` and `state_data` accesses (always
in-bounds for registered nodes) are embedded with default `0`. -/
def compute_next_state (current_state : StateVector) (control_input : List ℚ)
    (node_state : NodeState) : List ℚ :=
  let state_size := current_state.state_data.length
  (List.range state_size).map (fun i =>
    let aPart : ℚ :=
      ((List.range state_size).map (fun j =>
        ((node_state.transition_matrix.matrix.getD i []).getD j 0) *
          (current_state.state_data.getD j 0))).sum
    let bPart : ℚ :=
      ((List.range control_input.length).map (fun j =>
        if i < node_state.control_matrix.matrix.length ∧
            j < (node_state.control_matrix.matrix.getD i []).length then
          ((node_state.control_matrix.matrix.getD i []).getD j 0) *
            (control_input.getD j 0)
        else 0)).sum
    rustClamp (aPart + bPart) (-10) 10)

/-- The `check_convergence`: `max_i |prev[i] - new[i]| < threshold` over the
zipped state data, the running maximum starting at `0.0`. -/
def check_convergence (prev_state new_state : StateVector) (threshold : ℚ) : Bool :=
  let maxDiff :=
    (prev_state.state_data.zip new_state.state_data).foldl
      (fun acc p => max acc |p.1 - p.2|) 0
  decide (maxDiff < threshold)

/-- The `StateManager::update_state`.  The generated `state_id` UUID and the
`Utc::now()` instant are explicit arguments.  Returns the updated ledger and
the new current state, or the error string for an unknown node. -/
def update_state (L : StateLedger) (node_id : Nat) (control_input : List ℚ)
    (state_id : Nat) (now : Int) : Except String (StateLedger × StateVector) :=
  match assocLookup node_id L.states with
  | none => .error "Node not found"
  | some node_state =>
    let prev_state := node_state.current_state
    let new_state_data := compute_next_state prev_state control_input node_state
    let new_state : StateVector :=
      { node_id := node_id, timestamp := now, state_data := new_state_data,
        hidden_state := prev_state.hidden_state,
        control_input := control_input, state_id := state_id }
    let node_state1 := { node_state with current_state := new_state, last_update := now }
    let L1 :=
      { states := assocUpdate node_id node_state1 L.states,
        state_history := L.state_history ++ [new_state],
        immutable_ledger :=
          if check_convergence prev_state new_state node_state.convergence_threshold then
            L.immutable_ledger ++ [new_state]
          else L.immutable_ledger }
    .ok (L1, new_state)

/-- One update event: the control input together with the `state_id` UUID and
`Utc::now()` instant that the corresponding `update_state` call draws. -/
abbrev UpdateEvent := List ℚ × Nat × Int

/-- Run a sequence of `update_state` calls on one node, collecting the
emitted StateVectors (stopping at the first error). -/
def runUpdates (L : StateLedger) (node_id : Nat) : List UpdateEvent → List StateVector
  | [] => []
  | (u, sid, t) :: rest =>
    match update_state L node_id u sid t with
    | .error _ => []
    | .ok (L1, sv) => sv :: runUpdates L1 node_id rest

end StateEngine

/-! ## Snapshot serialization

`create_snapshot` is `serde_json::to_string_pretty(&self.ledger)` and
`load_snapshot` is `serde_json::from_str`; they are embedded at the level of
the JSON value tree (text layout and whitespace abstracted; serde's `f64`
round-trip is exact for finite values).  UUID map keys are embedded as their
numeric ids. -/

/-- Decode every element of a JSON array, failing if any element fails. -/
def decList {α : Type} (g : Json → Option α) : List Json → Option (List α)
  | [] => some []
  | j :: rest =>
    match g j, decList g rest with
    | some a, some as => some (a :: as)
    | _, _ => none

/-- Decode a JSON number. -/
def jAsNum : Json → Option ℚ
  | .num q => some q
  | _ => none

/-- Decode a JSON number that carries a natural. -/
def jAsNat : Json → Option Nat
  | .num q => if q.den = 1 ∧ 0 ≤ q.num then some q.num.toNat else none
  | _ => none

/-- Decode a JSON number that carries an integer. -/
def jAsInt : Json → Option Int
  | .num q => if q.den = 1 then some q.num else none
  | _ => none

/-- Decode a JSON string. -/
def jAsStr : Json → Option String
  | .str s => some s
  | _ => none

/-- Decode a JSON array of numbers. -/
def jAsNumList : Json → Option (List ℚ)
  | .arr l => decList jAsNum l
  | _ => none

/-- Decode a JSON array of arrays of numbers. -/
def jAsMat : Json → Option (List (List ℚ))
  | .arr l => decList jAsNumList l
  | _ => none

namespace StateEngine

/-- Serialize a `StateVector`. -/
def encSV (sv : StateVector) : Json :=
  .obj [("node_id", .num sv.node_id),
        ("timestamp", .num sv.timestamp),
        ("state_data", .arr (sv.state_data.map Json.num)),
        ("hidden_state", .arr (sv.hidden_state.map Json.num)),
        ("control_input", .arr (sv.control_input.map Json.num)),
        ("state_id", .num sv.state_id)]

/-- Deserialize a `StateVector`. -/
def decSV : Json → Option StateVector
  | .obj [("node_id", j1), ("timestamp", j2), ("state_data", j3),
          ("hidden_state", j4), ("control_input", j5), ("state_id", j6)] => do
    let node_id ← jAsNat j1
    let timestamp ← jAsInt j2
    let state_data ← jAsNumList j3
    let hidden_state ← jAsNumList j4
    let control_input ← jAsNumList j5
    let state_id ← jAsNat j6
    pure { node_id, timestamp, state_data, hidden_state, control_input, state_id }
  | _ => none

/-- Serialize a `NodeState`. -/
def encNS (ns : NodeState) : Json :=
  .obj [("node_type", .str ns.node_type),
        ("current_state", encSV ns.current_state),
        ("transition_matrix",
          .obj [("matrix", .arr (ns.transition_matrix.matrix.map
                  (fun row => .arr (row.map Json.num)))),
                ("size", .num ns.transition_matrix.size)]),
        ("control_matrix",
          .obj [("matrix", .arr (ns.control_matrix.matrix.map
                  (fun row => .arr (row.map Json.num)))),
                ("input_size", .num ns.control_matrix.input_size),
                ("state_size", .num ns.control_matrix.state_size)]),
        ("last_update", .num ns.last_update),
        ("convergence_threshold", .num ns.convergence_threshold),
        ("temperature", .num ns.temperature)]

/-- Deserialize a `TransitionMatrix`. -/
def decTM : Json → Option TransitionMatrix
  | .obj [("matrix", j1), ("size", j2)] => do
    let m ← jAsMat j1
    let s ← jAsNat j2
    pure { matrix := m, size := s }
  | _ => none

/-- Deserialize a `ControlMatrix`. -/
def decCM : Json → Option ControlMatrix
  | .obj [("matrix", j1), ("input_size", j2), ("state_size", j3)] => do
    let m ← jAsMat j1
    let isize ← jAsNat j2
    let ssize ← jAsNat j3
    pure { matrix := m, input_size := isize, state_size := ssize }
  | _ => none

/-- Deserialize a `NodeState`. -/
def decNS : Json → Option NodeState
  | .obj [("node_type", j1), ("current_state", j2), ("transition_matrix", j3),
          ("control_matrix", j4), ("last_update", j5),
          ("convergence_threshold", j6), ("temperature", j7)] => do
    let node_type ← jAsStr j1
    let current_state ← decSV j2
    let transition_matrix ← decTM j3
    let control_matrix ← decCM j4
    let last_update ← jAsInt j5
    let convergence_threshold ← jAsNum j6
    let temperature ← jAsNum j7
    pure { node_type, current_state, transition_matrix, control_matrix,
           last_update, convergence_threshold, temperature }
  | _ => none

/-- Serialize one `states` map entry. -/
def encEntry (p : Nat × NodeState) : Json :=
  .arr [.num p.1, encNS p.2]

/-- Deserialize one `states` map entry. -/
def decEntry : Json → Option (Nat × NodeState)
  | .arr [j1, j2] => do
    let k ← jAsNat j1
    let v ← decNS j2
    pure (k, v)
  | _ => none

/-- The `StateManager::create_snapshot`: serialize the whole ledger (always
succeeds in the source; the `serde_json::Error` branch is unreachable for
this data). -/
def create_snapshot (L : StateLedger) : Json :=
  .obj [("states", .arr (L.states.map encEntry)),
        ("state_history", .arr (L.state_history.map encSV)),
        ("immutable_ledger", .arr (L.immutable_ledger.map encSV))]

/-- The `StateManager::load_snapshot`: deserialize a ledger and replace the
current one; a malformed snapshot is a `serde_json::Error` (here `none`). -/
def load_snapshot : Json → Option StateLedger
  | .obj [("states", .arr js), ("state_history", .arr jh),
          ("immutable_ledger", .arr ji)] => do
    let states ← decList decEntry js
    let state_history ← decList decSV jh
    let immutable_ledger ← decList decSV ji
    pure { states, state_history, immutable_ledger }
  | _ => none

end StateEngine

/-! ## JSON text rendering

`serde_json::Value`'s `Display` produces the compact JSON text; it enters the
BARK canonical message (via `format!`) and the router's keyword scan (via
`payload.to_string()`).  String escaping is modelled for quote and backslash
(the characters relevant here); the decimal rendering of non-integral numbers
is abstracted as `num/den` — no theorem below inspects the rendering of a
number, every payload that reaches a canonical message or the router in the
theorems is number-free. -/

/-- Rendering of a JSON number (exact for integral values, abstracted
otherwise; see the section comment). -/
def qToString (q : ℚ) : String :=
  if q.den = 1 then toString q.num else toString q.num ++ "/" ++ toString q.den

/-- JSON string-body escaping (quote and backslash). -/
def escapeChars : List Char → List Char
  | [] => []
  | c :: rest =>
    (if c = '"' then ['\\', '"']
     else if c = '\\' then ['\\', '\\']
     else [c]) ++ escapeChars rest

/-- Comma-separated concatenation. -/
def commaSep : List String → String
  | [] => ""
  | [s] => s
  | s :: rest => s ++ "," ++ commaSep rest

mutual

/-- Compact JSON text of a value (`serde_json::Value::to_string`). -/
def jsonToString : Json → String
  | .null => "null"
  | .bool true => "true"
  | .bool false => "false"
  | .num q => qToString q
  | .str s => "\"" ++ String.mk (escapeChars s.data) ++ "\""
  | .arr l => "[" ++ commaSep (jsonListStrings l) ++ "]"
  | .obj l => "\x7b" ++ commaSep (jsonObjStrings l) ++ "\x7d"

/-- Renderings of the elements of a JSON array. -/
def jsonListStrings : List Json → List String
  | [] => []
  | j :: rest => jsonToString j :: jsonListStrings rest

/-- Renderings of the members of a JSON object. -/
def jsonObjStrings : List (String × Json) → List String
  | [] => []
  | (k, v) :: rest =>
      ("\"" ++ String.mk (escapeChars k.data) ++ "\":" ++ jsonToString v) ::
        jsonObjStrings rest

end

/-! ## BARK protocol (`src/shared/communication/src/lib.rs`) -/

namespace Bark

/-- The `TargetNode`: the closed set of agent identities, in source order
(the `as u8` discriminants are `0..12`). -/
inductive TargetNode where
  | LexVit | LexWth | LexMon | LexEnt | LexKno | LexCrt | LexOrd
  | LexKin | LexGrw | LexSan | LexLei | LexOut | LexLeg
deriving DecidableEq, Repr

/-- The `target_agent as u8`: the enum discriminant. -/
def TargetNode.asU8 : TargetNode → Nat
  | .LexVit => 0 | .LexWth => 1 | .LexMon => 2 | .LexEnt => 3
  | .LexKno => 4 | .LexCrt => 5 | .LexOrd => 6 | .LexKin => 7
  | .LexGrw => 8 | .LexSan => 9 | .LexLei => 10 | .LexOut => 11
  | .LexLeg => 12

/-- The `DirectiveKind`, in source order (discriminants `0..4`). -/
inductive DirectiveKind where
  | ANALYZE | GENERATE | VERIFY | EXECUTE_PLAN | VALIDATE_OUTPUT
deriving DecidableEq, Repr

/-- The `kind as u8`: the enum discriminant. -/
def DirectiveKind.asU8 : DirectiveKind → Nat
  | .ANALYZE => 0 | .GENERATE => 1 | .VERIFY => 2
  | .EXECUTE_PLAN => 3 | .VALIDATE_OUTPUT => 4

/-- The `BarkDirective`.  `request_id` is the UUID in its rendered (`Display`)
form — a 36-character string for any real UUID; `timestamp` carries the
unix-seconds value `timestamp.timestamp()` used by the canonical message. -/
structure BarkDirective where
  request_id : String
  caller_sigil : String
  target_agent : TargetNode
  kind : DirectiveKind
  payload : Json
  governance_vector : Option String
  timestamp : Int
  signature : Option String

/-- The `BarkDirective::canonical_message`: the bytes of
`format!("{}{}{}{}{}{}{}{}", request_id, caller_sigil, target_agent as u8,
kind as u8, payload, governance_vector.unwrap_or("null"), timestamp.timestamp(),
request_id)` — plain unseparated concatenation (characters model bytes). -/
def canonical_message (d : BarkDirective) : List Char :=
  d.request_id.data ++ d.caller_sigil.data ++
    (toString d.target_agent.asU8).data ++ (toString d.kind.asU8).data ++
    (jsonToString d.payload).data ++
    (d.governance_vector.getD "null").data ++
    (toString d.timestamp).data ++ d.request_id.data

/-- Lower-case hex digit of `n < 16` (`hex::encode`). -/
def hexDigit (n : Nat) : Char :=
  if n < 10 then Char.ofNat (48 + n) else Char.ofNat (87 + n)

/-- The `hex::encode`: two lower-case digits per byte. -/
def hexEncode : List Nat → List Char
  | [] => []
  | b :: rest => hexDigit (b / 16) :: hexDigit (b % 16) :: hexEncode rest

/-- Value of one hex digit (`hex::decode` accepts both cases). -/
def hexDigitVal (c : Char) : Option Nat :=
  if 48 ≤ c.toNat ∧ c.toNat ≤ 57 then some (c.toNat - 48)
  else if 97 ≤ c.toNat ∧ c.toNat ≤ 102 then some (c.toNat - 87)
  else if 65 ≤ c.toNat ∧ c.toNat ≤ 70 then some (c.toNat - 55)
  else none

/-- The `hex::decode`: fails on a non-digit or odd length. -/
def hexDecode : List Char → Option (List Nat)
  | [] => some []
  | [_] => none
  | c1 :: c2 :: rest => do
    let h ← hexDigitVal c1
    let l ← hexDigitVal c2
    let r ← hexDecode rest
    pure ((16 * h + l) :: r)

/-- The `ed25519_dalek::VerifyingKeyError` as used by `verify_signature`. -/
inductive VerifyingKeyError where
  | SignatureNotCanonical
  | Verification
deriving DecidableEq, Repr

/-- The Ed25519 primitive of `ed25519-dalek`, abstracted: `sign` maps a
signing key and a message to the 64 signature bytes
(`signing_key.sign(msg).to_bytes()`), `verify` checks signature bytes
against a verifying key and a message (`Signature::from_bytes` composed with
`verifying_key.verify`).  Keys and signatures are byte lists. -/
structure Ed25519Scheme where
  sign : List Nat → List Char → List Nat
  verify : List Nat → List Char → List Nat → Except VerifyingKeyError Bool

/-- The `BarkDirective::sign`: store `hex::encode(signature.to_bytes())` in the
`signature` field (the `SigningKeyError` branch never fires for well-formed
key material; the source always returns `Ok`). -/
def BarkDirective.signWith (S : Ed25519Scheme) (signing_key : List Nat)
    (d : BarkDirective) : BarkDirective :=
  { d with signature := some (String.mk (hexEncode (S.sign signing_key (canonical_message d)))) }

/-- The `BarkDirective::verify_signature`: absent signature yields `Ok(false)`;
a hex-decode failure yields `Err(SignatureNotCanonical)`; otherwise the
decoded bytes are checked by the Ed25519 primitive over the canonical
message. -/
def BarkDirective.verify_signature (S : Ed25519Scheme) (verifying_key : List Nat)
    (d : BarkDirective) : Except VerifyingKeyError Bool :=
  match d.signature with
  | none => .ok false
  | some signature_str =>
    match hexDecode signature_str.data with
    | none => .error .SignatureNotCanonical
    | some signature_bytes => S.verify verifying_key (canonical_message d) signature_bytes

end Bark

/-! ## LEX-MON coordinator (`src/nodes/lex-mon/src/main.rs`) -/

namespace LexMon

open Bark

/-- The `ResponseStatus` of the BARK protocol. -/
inductive ResponseStatus where
  | Success | Failure | Pending | Rejected
deriving DecidableEq, Repr

/-- The `BarkResponse` as consumed by the synthesizer (`request_id` a rendered
UUID, `timestamp` in unix seconds). -/
structure BarkResponse where
  request_id : String
  source_node : TargetNode
  status : ResponseStatus
  payload : Json
  signature : String
  timestamp : Int

/-- Is the needle a leading segment of the haystack? -/
def startsWithList : List Char → List Char → Bool
  | [], _ => true
  | _ :: _, [] => false
  | a :: as, b :: bs => a = b && startsWithList as bs

/-- Substring test (`str::contains`): the needle occurs at some position. -/
def hasSubList (needle : List Char) : List Char → Bool
  | [] => startsWithList needle []
  | c :: rest => startsWithList needle (c :: rest) || hasSubList needle rest

/-- The `str::contains(keyword)` on the payload text. -/
def strContainsStr (hay needle : String) : Bool :=
  hasSubList needle.data hay.data

/-- ASCII lower-casing of one character (`str::to_lowercase`, restricted to
the ASCII range — every routing keyword is ASCII). -/
def charToLower (c : Char) : Char :=
  if 65 ≤ c.toNat ∧ c.toNat ≤ 90 then Char.ofNat (c.toNat + 32) else c

/-- The `str::to_lowercase` (ASCII). -/
def strToLower (s : String) : String :=
  String.mk (s.data.map charToLower)

/-- The `determine_analysis_targets`: keyword-based routing over the lowercased
payload text; targets are pushed in source order, and `LexKno` is the
default when nothing matched. -/
def determine_analysis_targets (payload : String) : List TargetNode :=
  let c := fun kw => strContainsStr payload kw
  let targets :=
    (if c "runway" || c "financial" || c "wealth" then [TargetNode.LexWth] else []) ++
    (if c "bioload" || c "vital" || c "health" || c "stress" || c "sleep" then
      [TargetNode.LexVit] else []) ++
    (if c "pivot" || c "strategy" || c "enterprise" then [TargetNode.LexEnt] else []) ++
    (if c "knowledge" || c "information" || c "data" then [TargetNode.LexKno] else []) ++
    (if c "create" || c "generate" || c "output" then [TargetNode.LexCrt] else []) ++
    (if c "plan" || c "schedule" || c "logistics" then [TargetNode.LexOrd] else []) ++
    (if c "social" || c "relationship" || c "kinship" then [TargetNode.LexKin] else []) ++
    (if c "learn" || c "growth" || c "capability" then [TargetNode.LexGrw] else []) ++
    (if c "environment" || c "sanctuary" || c "infrastructure" then
      [TargetNode.LexSan] else []) ++
    (if c "leisure" || c "recovery" || c "restoration" then [TargetNode.LexLei] else []) ++
    (if c "communication" || c "influence" || c "outreach" then [TargetNode.LexOut] else []) ++
    (if c "legacy" || c "history" || c "meta" then [TargetNode.LexLeg] else [])
  if targets = [] then [TargetNode.LexKno] else targets

/-- The fixed routing table of `determine_analysis_targets`: every keyword
with the agent it routes to. -/
def routingTable : List (String × TargetNode) :=
  [("runway", .LexWth), ("financial", .LexWth), ("wealth", .LexWth),
   ("bioload", .LexVit), ("vital", .LexVit), ("health", .LexVit),
   ("stress", .LexVit), ("sleep", .LexVit),
   ("pivot", .LexEnt), ("strategy", .LexEnt), ("enterprise", .LexEnt),
   ("knowledge", .LexKno), ("information", .LexKno), ("data", .LexKno),
   ("create", .LexCrt), ("generate", .LexCrt), ("output", .LexCrt),
   ("plan", .LexOrd), ("schedule", .LexOrd), ("logistics", .LexOrd),
   ("social", .LexKin), ("relationship", .LexKin), ("kinship", .LexKin),
   ("learn", .LexGrw), ("growth", .LexGrw), ("capability", .LexGrw),
   ("environment", .LexSan), ("sanctuary", .LexSan), ("infrastructure", .LexSan),
   ("leisure", .LexLei), ("recovery", .LexLei), ("restoration", .LexLei),
   ("communication", .LexOut), ("influence", .LexOut), ("outreach", .LexOut),
   ("legacy", .LexLeg), ("history", .LexLeg), ("meta", .LexLeg)]

/-- The keywords of the routing table. -/
def routingKeywords : List String := routingTable.map (·.1)

/-- The target set `route_analysis_directive` computes for a directive:
`determine_analysis_targets(payload.to_string().to_lowercase())`.  Only the
payload enters; `target_agent` is not consulted. -/
def analysis_targets (d : BarkDirective) : List TargetNode :=
  determine_analysis_targets (strToLower (jsonToString d.payload))

/-- First-match lookup of a key in a JSON object (`Value::get(key)`). -/
def jsonGet (j : Json) (key : String) : Option Json :=
  match j with
  | .obj l => lookupKey l
  | _ => none
where
  lookupKey : List (String × Json) → Option Json
    | [] => none
    | (k, v) :: rest => if k = key then some v else lookupKey rest

/-- The `Value::as_f64` (numbers only, embedded as `ℚ`). -/
def jAsF64 : Json → Option ℚ
  | .num q => some q
  | _ => none

/-- The `key_insights` object built by `synthesize_analysis_response`:
`financial_runway` (from a `LexWth` success payload's `runway_months`) and
`biological_load` (from a `LexVit` success payload's `bioload_percentage`). -/
structure KeyInsights where
  financial_runway : Option Json
  biological_load : Option Json

/-- The `decision` object of `generate_council_decision` (the formatted
`reasoning` string, a `format!` of the two factors, is elided). -/
structure CouncilDecision where
  verdict : String
  action_required : Bool
deriving DecidableEq, Repr

/-- The synthesis JSON object assembled by `synthesize_analysis_response`
(`directive_id` and `synthesis_timestamp` members elided; `key_insights`,
`risk_assessment`, `confidence_score`, `decision`, `council_verdict` kept
structured). -/
structure Synthesis where
  response_count : Nat
  key_insights : KeyInsights
  risk_assessment : String
  confidence_score : ℚ
  decision : CouncilDecision
  council_verdict : String

/-- The `generate_council_decision`: three-tier verdict from
`financial_runway` (`as_f64`, default `0.0`) and `biological_load`
(`as_f64`, default `100.0`). -/
def generate_council_decision (key_insights : KeyInsights) : CouncilDecision :=
  let financial_runway : ℚ := ((key_insights.financial_runway.bind jAsF64).getD 0)
  let biological_load : ℚ := ((key_insights.biological_load.bind jAsF64).getD 100)
  let decision :=
    if financial_runway ≥ 6 ∧ biological_load ≤ 75 then "GO"
    else if financial_runway ≥ 3 ∧ biological_load ≤ 85 then "CAUTION"
    else "HOLD"
  { verdict := decision, action_required := decide (decision = "GO") }

/-- The fold over the responses that fills `key_insights`: only `Success`
responses from `LexWth`/`LexVit` contribute, all others are skipped. -/
def extract_key_insights (responses : List BarkResponse) : KeyInsights :=
  responses.foldl
    (fun acc r =>
      if r.status = ResponseStatus.Success then
        match r.source_node with
        | TargetNode.LexWth =>
          match jsonGet r.payload "runway_months" with
          | some v => { acc with financial_runway := some v }
          | none => acc
        | TargetNode.LexVit =>
          match jsonGet r.payload "bioload_percentage" with
          | some v => { acc with biological_load := some v }
          | none => acc
        | _ => acc
      else acc)
    { financial_runway := none, biological_load := none }

/-- The `synthesize_analysis_response`: assemble the synthesis object and return
`Ok(BarkResponse::success(directive_id, LexMon, synthesis))`; embedded as the
`(status, payload)` pair of that response (the request id passes through
unchanged and the `Utc::now` timestamp is elided). -/
def synthesize_analysis_response (responses : List BarkResponse) :
    ResponseStatus × Synthesis :=
  let key_insights := extract_key_insights responses
  let decision := generate_council_decision key_insights
  (ResponseStatus.Success,
   { response_count := responses.length,
     key_insights := key_insights,
     risk_assessment := "LOW",
     confidence_score := 85/100,
     decision := decision,
     council_verdict := "APPROVED" })

end LexMon

/-! ## Spec-side definitions

Mathematical statements of the specified state recurrence, written from the
spec's words (`h_t = A·h_{t-1} + B·u_t`, clamp, `max_i |h_t[i] - h_{t-1}[i]|`)
to be compared with the source-derived `compute_next_state` and
`check_convergence`. -/

/-- Dot product of two (equal-length) vectors. -/
def specDot (xs ys : List ℚ) : ℚ :=
  ((xs.zip ys).map (fun p => p.1 * p.2)).sum

/-- Matrix-vector product. -/
def specMatVec (m : List (List ℚ)) (v : List ℚ) : List ℚ :=
  m.map (fun row => specDot row v)

/-- The spec's next state: `A·h + B·u`, every component clamped to
`[-10, 10]`. -/
def specNextState (A B : List (List ℚ)) (h u : List ℚ) : List ℚ :=
  (List.zipWith (fun a b => a + b) (specMatVec A h) (specMatVec B u)).map
    (fun x => StateEngine.rustClamp x (-10) 10)

/-- The spec's update delta `max_i |xs[i] - ys[i]|` (over the zipped
components, starting from `0`); `|·|` is symmetric, so the orientation of
the difference is immaterial. -/
def specMaxAbsDiff (xs ys : List ℚ) : ℚ :=
  ((xs.zip ys).map (fun p => |p.1 - p.2|)).foldl max 0

/-- The numeric content of an emitted StateVector: its `state_data`,
`hidden_state` and `control_input` (everything except the generated
`node_id`/`state_id` UUIDs and the wall-clock `timestamp`). -/
def svCore (sv : StateEngine.StateVector) : List ℚ × List ℚ × List ℚ :=
  (sv.state_data, sv.hidden_state, sv.control_input)

/-! ## Concrete instances used by counterexamples and witnesses -/

namespace StateEngine

/-- The node state produced by
`register_node(emptyLedger, "LEX-VIT", 1, 1)` with generated ids
`node_id = 0`, `state_id = 100` at instant `0`, written out. -/
def wNode : NodeState :=
  { node_type := "LEX-VIT",
    current_state :=
      { node_id := 0, timestamp := 0, state_data := [0], hidden_state := [0],
        control_input := [0], state_id := 100 },
    transition_matrix := { matrix := [[98/100]], size := 1 },
    control_matrix := { matrix := [[1/10]], input_size := 1, state_size := 1 },
    last_update := 0, convergence_threshold := 1/1000000, temperature := 0 }

/-- A ledger holding `wNode` under node id `0`. -/
def wLedger : StateLedger :=
  { states := [(0, wNode)], state_history := [], immutable_ledger := [] }

/-- An empty state vector, used only as an `Option.getD` fallback. -/
def svZero : StateVector :=
  { node_id := 0, timestamp := 0, state_data := [], hidden_state := [],
    control_input := [], state_id := 0 }

/-- The (ledger, emitted state) result of `update_state wLedger 0 [1]`
(generated state id `1`, instant `0`). -/
def wUpdated : StateLedger × StateVector :=
  (update_state wLedger 0 [1] 1 0).toOption.getD (emptyLedger, svZero)

/-- First manager of the C1 counterexample: registered with generated ids
`node_id = 0`, `state_id = 100`. -/
def c1L1 : StateLedger :=
  (register_node emptyLedger "LEX-VIT" 1 1 0 100 0).1

/-- Second manager of the C1 counterexample: same
`(node_type, state_size, input_size)`, its own generated ids
(`state_id = 200`). -/
def c1L2 : StateLedger :=
  (register_node emptyLedger "LEX-VIT" 1 1 0 200 0).1

/-- Update events of the first manager: control input `[1]`, generated
state id `10`. -/
def c1evs1 : List UpdateEvent := [([1], 10, 0)]

/-- Update events of the second manager: the identical control input `[1]`,
its own generated state id `20`. -/
def c1evs2 : List UpdateEvent := [([1], 20, 0)]

end StateEngine

namespace Bark

/-- A stand-in Ed25519 primitive satisfying the sign/verify round-trip
property, used to instantiate parameterized theorems at a concrete input. -/
def toyScheme : Ed25519Scheme :=
  { sign := fun _ _ => [7],
    verify := fun _ _ sig => .ok (decide (sig = [7])) }

/-- A base directive for the signing theorems. -/
def dBase : BarkDirective :=
  { request_id := "00000000-0000-4000-8000-000000000000",
    caller_sigil := "x", target_agent := .LexLeg, kind := .ANALYZE,
    payload := Json.str "p", governance_vector := none, timestamp := 0,
    signature := none }

/-- First directive of the C4 collision pair: `caller_sigil = "x"`,
`target_agent = LexLeg` (discriminant `12`). -/
def dCol1 : BarkDirective := dBase

/-- Second directive of the C4 collision pair: `caller_sigil = "x1"`,
`target_agent = LexMon` (discriminant `2`); all other fields as `dCol1`. -/
def dCol2 : BarkDirective :=
  { dBase with caller_sigil := "x1", target_agent := .LexMon }

/-- A directive differing from `dBase` only in `request_id`. -/
def dOtherId : BarkDirective :=
  { dBase with request_id := "00000000-0000-4000-8000-000000000001" }

/-- A directive carrying a malformed (non-hex) signature. -/
def dMalformed : BarkDirective := { dBase with signature := some "zz" }

end Bark

namespace LexMon

open Bark

/-- An ANALYZE directive with the given payload and explicit target. -/
def mkAnalyze (payload : Json) (target : TargetNode) : BarkDirective :=
  { request_id := "00000000-0000-4000-8000-000000000002",
    caller_sigil := "caller", target_agent := target, kind := .ANALYZE,
    payload := payload, governance_vector := none, timestamp := 0,
    signature := none }

/-- A failed response (no usable output). -/
def respFailure : BarkResponse :=
  { request_id := "r", source_node := .LexVit, status := .Failure,
    payload := Json.null, signature := "[signed_failure]", timestamp := 0 }

/-- A `LexWth` success response with `runway_months = 2.9`. -/
def respRunway29 : BarkResponse :=
  { request_id := "r", source_node := .LexWth, status := .Success,
    payload := .obj [("runway_months", .num (29/10))],
    signature := "[signed_success]", timestamp := 0 }

/-- A `LexWth` success response with `runway_months = 6.5`. -/
def respRunway65 : BarkResponse :=
  { request_id := "r", source_node := .LexWth, status := .Success,
    payload := .obj [("runway_months", .num (13/2))],
    signature := "[signed_success]", timestamp := 0 }

/-- A `LexVit` success response with `bioload_percentage = 72.0`. -/
def respBioload72 : BarkResponse :=
  { request_id := "r", source_node := .LexVit, status := .Success,
    payload := .obj [("bioload_percentage", .num 72)],
    signature := "[signed_success]", timestamp := 0 }

end LexMon

/-! # Theorems -/

/-! ## Hex round-trip -/

/-- One hex digit decodes back to its value. -/
theorem hexDigitVal_hexDigit : ∀ n < 16, Bark.hexDigitVal (Bark.hexDigit n) = some n := by
  decide

/-- The `hex::decode` inverts `hex::encode` on byte lists. -/
theorem hexDecode_hexEncode (bs : List Nat) (h : ∀ b ∈ bs, b < 256) :
    Bark.hexDecode (Bark.hexEncode bs) = some bs := by
  induction bs with
  | nil => rfl
  | cons b rest ih =>
    have hb : b < 256 := h b (List.mem_cons_self b rest)
    have h1 : Bark.hexDigitVal (Bark.hexDigit (b / 16)) = some (b / 16) :=
      hexDigitVal_hexDigit _ (by omega)
    have h2 : Bark.hexDigitVal (Bark.hexDigit (b % 16)) = some (b % 16) :=
      hexDigitVal_hexDigit _ (by omega)
    have ih2 := ih (fun x hx => h x (List.mem_cons_of_mem b hx))
    simp [Bark.hexEncode, Bark.hexDecode, h1, h2, ih2]
    omega

/-! ## C3 -/

/-- C3: for every directive `d` and every valid Ed25519 key pair
(`S.verify vk · (S.sign sk ·) = Ok(true)`, the defining property of a valid
pair for the abstracted `ed25519-dalek` primitive, whose signatures are byte
lists), `BarkDirective::sign` followed by `BarkDirective::verify_signature`
yields `Ok(true)`. -/
theorem c3_sign_verify_roundtrip (S : Bark.Ed25519Scheme) (sk vk : List Nat)
    (d : Bark.BarkDirective)
    (hbytes : ∀ b ∈ S.sign sk (Bark.canonical_message d), b < 256)
    (hvalid : ∀ m : List Char, S.verify vk m (S.sign sk m) = .ok true) :
    (d.signWith S sk).verify_signature S vk = .ok true := by
  simp only [Bark.BarkDirective.signWith, Bark.BarkDirective.verify_signature,
    hexDecode_hexEncode _ hbytes]
  exact hvalid _

/-- C3 witness: the round-trip theorem at a concrete scheme, key pair and
directive. -/
theorem c3_witness :
    (Bark.dBase.signWith Bark.toyScheme []).verify_signature Bark.toyScheme [] = .ok true :=
  c3_sign_verify_roundtrip Bark.toyScheme [] [] Bark.dBase (by decide) (fun _ => rfl)

/-! ## C4 -/

/-- C4 counterexample: `dCol1` and `dCol2` differ in `caller_sigil` and
`target_agent` (all other non-signature fields equal), yet their canonical
byte encodings coincide — the unseparated `format!` concatenation is not
injective, so a directive mutated this way still verifies against the
original's signature. -/
theorem c4_counterexample :
    Bark.canonical_message Bark.dCol1 = Bark.canonical_message Bark.dCol2 ∧
    Bark.dCol1.caller_sigil ≠ Bark.dCol2.caller_sigil ∧
    Bark.dCol1.target_agent ≠ Bark.dCol2.target_agent ∧
    Bark.dCol1.request_id = Bark.dCol2.request_id ∧
    Bark.dCol1.kind = Bark.dCol2.kind ∧
    Bark.dCol1.payload = Bark.dCol2.payload ∧
    Bark.dCol1.governance_vector = Bark.dCol2.governance_vector ∧
    Bark.dCol1.timestamp = Bark.dCol2.timestamp ∧
    Bark.dCol1.signature = Bark.dCol2.signature :=
  ⟨by decide, by decide, by decide, rfl, rfl, rfl, rfl, rfl, rfl⟩

/-- C4 amended: a change to `request_id` alone (a rendered UUID, 36
characters), all other fields held fixed, always changes the canonical
bytes; changes to other fields need not (see the counterexample). -/
theorem c4_request_id_separates (a b : Bark.BarkDirective)
    (hla : a.request_id.length = 36) (hlb : b.request_id.length = 36)
    (hid : a.request_id ≠ b.request_id)
    (hs : a.caller_sigil = b.caller_sigil) (ht : a.target_agent = b.target_agent)
    (hk : a.kind = b.kind) (hp : a.payload = b.payload)
    (hg : a.governance_vector = b.governance_vector)
    (htime : a.timestamp = b.timestamp) :
    Bark.canonical_message a ≠ Bark.canonical_message b := by
  intro heq
  apply hid
  unfold Bark.canonical_message at heq
  rw [hs, ht, hk, hp, hg, htime] at heq
  have hlen : a.request_id.data.length = b.request_id.data.length := by
    have ha : a.request_id.data.length = 36 := hla
    have hb : b.request_id.data.length = 36 := hlb
    omega
  have hdata := (List.append_inj' heq hlen).2
  exact String.ext hdata

/-- C4 witness: the amended theorem at two concrete directives differing
only in `request_id`. -/
theorem c4_witness :
    Bark.canonical_message Bark.dBase ≠ Bark.canonical_message Bark.dOtherId :=
  c4_request_id_separates Bark.dBase Bark.dOtherId (by decide) (by decide)
    (by decide) rfl rfl rfl rfl rfl rfl

/-! ## C8 -/

/-- C8 counterexample: a directive whose signature field holds the non-hex
string `"zz"` makes `verify_signature` return the error value
`Err(SignatureNotCanonical)` — not the boolean `false` the claim
requires. -/
theorem c8_counterexample :
    Bark.dMalformed.verify_signature Bark.toyScheme [] =
      .error Bark.VerifyingKeyError.SignatureNotCanonical ∧
    Bark.dMalformed.verify_signature Bark.toyScheme [] ≠ .ok false :=
  ⟨rfl, fun h => Except.noConfusion h⟩

/-- C8 amended: an absent signature yields `Ok(false)`; a malformed
(non-hex-decodable) signature yields the error value
`Err(SignatureNotCanonical)` rather than `false`; a well-formed but invalid
signature is delegated to the Ed25519 primitive. -/
theorem c8_verify_failure_modes (S : Bark.Ed25519Scheme) (vk : List Nat)
    (d : Bark.BarkDirective) :
    (d.signature = none → d.verify_signature S vk = .ok false) ∧
    (∀ s, d.signature = some s → Bark.hexDecode s.data = none →
      d.verify_signature S vk = .error Bark.VerifyingKeyError.SignatureNotCanonical) := by
  constructor
  · intro h
    simp [Bark.BarkDirective.verify_signature, h]
  · intro s hs hx
    simp [Bark.BarkDirective.verify_signature, hs, hx]

/-- C8 witness: the amended theorem at a concrete unsigned directive. -/
theorem c8_witness : Bark.dBase.verify_signature Bark.toyScheme [] = .ok false :=
  (c8_verify_failure_modes Bark.toyScheme [] Bark.dBase).1 rfl

/-! ## C5 -/

/-- C5 counterexample: for a response set whose Success subset is empty
(the empty set, and a set holding one Failure response),
`synthesize_analysis_response` returns a `Success` response — not the
Failure response the claim requires. -/
theorem c5_counterexample :
    ((LexMon.synthesize_analysis_response []).1 = LexMon.ResponseStatus.Success ∧
      (LexMon.synthesize_analysis_response []).1 ≠ LexMon.ResponseStatus.Failure) ∧
    ((LexMon.synthesize_analysis_response [LexMon.respFailure]).1 =
        LexMon.ResponseStatus.Success ∧
      (LexMon.synthesize_analysis_response [LexMon.respFailure]).1 ≠
        LexMon.ResponseStatus.Failure) :=
  ⟨⟨rfl, by decide⟩, ⟨rfl, by decide⟩⟩

/-- C5 amended: for every response set with an empty Success subset, the
synthesizer still returns a `Success` response with council verdict
`"APPROVED"` (it never reports the absence of usable output as a
Failure). -/
theorem c5_synthesis_always_success (rs : List LexMon.BarkResponse)
    (_h : ∀ r ∈ rs, r.status ≠ LexMon.ResponseStatus.Success) :
    (LexMon.synthesize_analysis_response rs).1 = LexMon.ResponseStatus.Success ∧
    (LexMon.synthesize_analysis_response rs).2.council_verdict = "APPROVED" ∧
    (LexMon.synthesize_analysis_response rs).1 ≠ LexMon.ResponseStatus.Failure :=
  ⟨rfl, rfl, fun hEq => LexMon.ResponseStatus.noConfusion hEq⟩

/-- C5 witness: the amended theorem at a singleton Failure response set. -/
theorem c5_witness :
    (LexMon.synthesize_analysis_response [LexMon.respFailure]).1 =
      LexMon.ResponseStatus.Success ∧
    (LexMon.synthesize_analysis_response [LexMon.respFailure]).2.council_verdict =
      "APPROVED" ∧
    (LexMon.synthesize_analysis_response [LexMon.respFailure]).1 ≠
      LexMon.ResponseStatus.Failure :=
  c5_synthesis_always_success [LexMon.respFailure] (by decide)

/-! ## C6 -/

/-- C6 counterexample: a response set containing (only) a Success response
with financial-runway factor 6.5 months yields verdict `HOLD`, not the
claimed `GO` — the biological-load factor defaults to 100.0, which fails
the `≤ 75.0` conjunct of the GO rule; moreover `risk_assessment` is the
constant `"LOW"`, so the claimed `HIGH` risk never appears either. -/
theorem c6_counterexample :
    (LexMon.synthesize_analysis_response [LexMon.respRunway65]).2.decision.verdict = "HOLD" ∧
    (LexMon.synthesize_analysis_response [LexMon.respRunway65]).2.decision.verdict ≠ "GO" ∧
    (LexMon.synthesize_analysis_response [LexMon.respRunway65]).2.risk_assessment = "LOW" := by
  refine ⟨?_, ?_, rfl⟩ <;>
    norm_num [LexMon.synthesize_analysis_response, LexMon.extract_key_insights,
      LexMon.generate_council_decision, LexMon.respRunway65, LexMon.jsonGet,
      LexMon.jsonGet.lookupKey, LexMon.jAsF64] <;>
    decide

/-- C6 amended: a runway factor of 2.9 months yields verdict `HOLD` (the
synthesis's `risk_assessment` field is always `"LOW"`; no `HIGH` risk is
recorded anywhere), and 6.5 months yields `GO` only together with a
biological-load factor at most 75.0 (here 72.0), again with
`risk_assessment = "LOW"`. -/
theorem c6_threshold_behavior :
    ((LexMon.synthesize_analysis_response [LexMon.respRunway29]).2.decision.verdict = "HOLD" ∧
     (LexMon.synthesize_analysis_response [LexMon.respRunway29]).2.risk_assessment = "LOW") ∧
    ((LexMon.synthesize_analysis_response
        [LexMon.respRunway65, LexMon.respBioload72]).2.decision.verdict = "GO" ∧
     (LexMon.synthesize_analysis_response
        [LexMon.respRunway65, LexMon.respBioload72]).2.risk_assessment = "LOW") := by
  refine ⟨⟨?_, rfl⟩, ⟨?_, rfl⟩⟩ <;>
    norm_num [LexMon.synthesize_analysis_response, LexMon.extract_key_insights,
      LexMon.generate_council_decision, LexMon.respRunway29, LexMon.respRunway65,
      LexMon.respBioload72, LexMon.jsonGet, LexMon.jsonGet.lookupKey, LexMon.jAsF64]

/-! ## C7 -/

/-- C7 counterexample: an ANALYZE directive whose payload matches the
`runway` keyword but whose explicit `target_agent` is `LexKin` routes to
`[LexWth]` only — the explicit target is not included, refuting the third
conjunct of the claim. -/
theorem c7_counterexample :
    (LexMon.mkAnalyze (Json.str "runway") Bark.TargetNode.LexKin).target_agent =
      Bark.TargetNode.LexKin ∧
    LexMon.analysis_targets (LexMon.mkAnalyze (Json.str "runway") Bark.TargetNode.LexKin) =
      [Bark.TargetNode.LexWth] ∧
    Bark.TargetNode.LexKin ∉
      LexMon.analysis_targets (LexMon.mkAnalyze (Json.str "runway") Bark.TargetNode.LexKin) :=
  ⟨rfl, by decide, by decide⟩

/-- C7 amended: every keyword of the fixed routing table routes a directive
whose payload is exactly that keyword to exactly the mapped agent; a payload
containing no routing keyword routes to the default agent `LexKno`; but the
routed set of an ANALYZE directive is computed from the payload alone — the
explicit `target_agent` is ignored (it is not generally included). -/
theorem c7_routing_behavior :
    (∀ p ∈ LexMon.routingTable,
      LexMon.analysis_targets (LexMon.mkAnalyze (Json.str p.1) Bark.TargetNode.LexMon) =
        [p.2]) ∧
    (∀ d : Bark.BarkDirective,
      (∀ kw ∈ LexMon.routingKeywords,
        LexMon.strContainsStr (LexMon.strToLower (jsonToString d.payload)) kw = false) →
      LexMon.analysis_targets d = [Bark.TargetNode.LexKno]) ∧
    (∀ (d : Bark.BarkDirective) (t : Bark.TargetNode),
      LexMon.analysis_targets { d with target_agent := t } = LexMon.analysis_targets d) := by
  refine ⟨by decide, ?_, fun d t => rfl⟩
  intro d h
  have h1 := h "runway" (by decide)
  have h2 := h "financial" (by decide)
  have h3 := h "wealth" (by decide)
  have h4 := h "bioload" (by decide)
  have h5 := h "vital" (by decide)
  have h6 := h "health" (by decide)
  have h7 := h "stress" (by decide)
  have h8 := h "sleep" (by decide)
  have h9 := h "pivot" (by decide)
  have h10 := h "strategy" (by decide)
  have h11 := h "enterprise" (by decide)
  have h12 := h "knowledge" (by decide)
  have h13 := h "information" (by decide)
  have h14 := h "data" (by decide)
  have h15 := h "create" (by decide)
  have h16 := h "generate" (by decide)
  have h17 := h "output" (by decide)
  have h18 := h "plan" (by decide)
  have h19 := h "schedule" (by decide)
  have h20 := h "logistics" (by decide)
  have h21 := h "social" (by decide)
  have h22 := h "relationship" (by decide)
  have h23 := h "kinship" (by decide)
  have h24 := h "learn" (by decide)
  have h25 := h "growth" (by decide)
  have h26 := h "capability" (by decide)
  have h27 := h "environment" (by decide)
  have h28 := h "sanctuary" (by decide)
  have h29 := h "infrastructure" (by decide)
  have h30 := h "leisure" (by decide)
  have h31 := h "recovery" (by decide)
  have h32 := h "restoration" (by decide)
  have h33 := h "communication" (by decide)
  have h34 := h "influence" (by decide)
  have h35 := h "outreach" (by decide)
  have h36 := h "legacy" (by decide)
  have h37 := h "history" (by decide)
  have h38 := h "meta" (by decide)
  simp [LexMon.analysis_targets, LexMon.determine_analysis_targets,
    h1, h2, h3, h4, h5, h6, h7, h8, h9, h10, h11, h12, h13, h14, h15, h16,
    h17, h18, h19, h20, h21, h22, h23, h24, h25, h26, h27, h28, h29, h30,
    h31, h32, h33, h34, h35, h36, h37, h38]

/-- C7 witness: the amended theorem at a concrete keyword payload and at a
concrete keyword-free payload. -/
theorem c7_witness :
    LexMon.analysis_targets (LexMon.mkAnalyze (Json.str "sleep") Bark.TargetNode.LexMon) =
      [Bark.TargetNode.LexVit] ∧
    LexMon.analysis_targets (LexMon.mkAnalyze (Json.str "qqq") Bark.TargetNode.LexMon) =
      [Bark.TargetNode.LexKno] :=
  ⟨c7_routing_behavior.1 ("sleep", Bark.TargetNode.LexVit) (by decide),
   c7_routing_behavior.2.1 (LexMon.mkAnalyze (Json.str "qqq") Bark.TargetNode.LexMon)
     (by decide)⟩

/-! ## State-engine lemmas -/

/-- The clamp used by `compute_next_state` lands in `[-10, 10]`. -/
theorem rustClamp_bounds (x : ℚ) :
    -10 ≤ StateEngine.rustClamp x (-10) 10 ∧ StateEngine.rustClamp x (-10) 10 ≤ 10 := by
  unfold StateEngine.rustClamp
  split_ifs with h1 h2 <;> constructor <;> linarith

/-- Every component `compute_next_state` produces is clamped, hence in
`[-10, 10]`. -/
theorem compute_next_state_bounds (sv : StateEngine.StateVector) (u : List ℚ)
    (ns : StateEngine.NodeState) :
    ∀ x ∈ StateEngine.compute_next_state sv u ns, -10 ≤ x ∧ x ≤ 10 := by
  intro x hx
  unfold StateEngine.compute_next_state at hx
  simp only [List.mem_map] at hx
  obtain ⟨i, _, hi⟩ := hx
  subst hi
  exact rustClamp_bounds _

/-! ## C10 -/

/-- C10: every StateVector emitted by a successful `update_state` has all
`state_data` components in `[-10, 10]`; it is the one entry appended to the
history, and the immutable ledger either is unchanged or has exactly that
(bounded) entry appended — so the bound is an invariant of everything
`update_state` records. -/
theorem c10_state_bounded (L L1 : StateEngine.StateLedger) (node_id : Nat)
    (u : List ℚ) (sid : Nat) (t : Int) (sv : StateEngine.StateVector)
    (h : StateEngine.update_state L node_id u sid t = .ok (L1, sv)) :
    (∀ x ∈ sv.state_data, -10 ≤ x ∧ x ≤ 10) ∧
    L1.state_history = L.state_history ++ [sv] ∧
    (L1.immutable_ledger = L.immutable_ledger ∨
      L1.immutable_ledger = L.immutable_ledger ++ [sv]) := by
  unfold StateEngine.update_state at h
  cases hl : StateEngine.assocLookup node_id L.states with
  | none =>
    rw [hl] at h
    exact Except.noConfusion h
  | some ns =>
    rw [hl] at h
    simp only [Except.ok.injEq, Prod.mk.injEq] at h
    obtain ⟨hL1, hsv⟩ := h
    subst hL1
    subst hsv
    refine ⟨compute_next_state_bounds _ _ _, rfl, ?_⟩
    by_cases hc : StateEngine.check_convergence ns.current_state
        { node_id := node_id, timestamp := t,
          state_data := StateEngine.compute_next_state ns.current_state u ns,
          hidden_state := ns.current_state.hidden_state,
          control_input := u, state_id := sid } ns.convergence_threshold
    · right
      simp [hc]
    · left
      simp [hc]

/-- C10 witness: the theorem at a concrete registered node and update. -/
theorem c10_witness :
    (∀ x ∈ StateEngine.wUpdated.2.state_data, -10 ≤ x ∧ x ≤ 10) ∧
    StateEngine.wUpdated.1.state_history =
      StateEngine.wLedger.state_history ++ [StateEngine.wUpdated.2] ∧
    (StateEngine.wUpdated.1.immutable_ledger = StateEngine.wLedger.immutable_ledger ∨
      StateEngine.wUpdated.1.immutable_ledger =
        StateEngine.wLedger.immutable_ledger ++ [StateEngine.wUpdated.2]) :=
  c10_state_bounded StateEngine.wLedger StateEngine.wUpdated.1 0 [1] 1 0
    StateEngine.wUpdated.2 rfl

/-- The bounded-index sum of the source's inner loops equals the dot
product, for equal-length vectors. -/
theorem sum_range_getD_eq_specDot (k : Nat) :
    ∀ xs ys : List ℚ, xs.length = k → ys.length = k →
      ((List.range k).map (fun j => xs.getD j 0 * ys.getD j 0)).sum = specDot xs ys := by
  induction k with
  | zero =>
    intro xs ys hx hy
    rw [List.length_eq_zero] at hx hy
    subst hx
    subst hy
    rfl
  | succ n ih =>
    intro xs ys hx hy
    cases xs with
    | nil => simp at hx
    | cons a as =>
      cases ys with
      | nil => simp at hy
      | cons b bs =>
        have hx1 : as.length = n := by simpa using hx
        have hy1 : bs.length = n := by simpa using hy
        have hcomp :
            ((fun j => (a :: as).getD j 0 * (b :: bs).getD j 0) ∘ Nat.succ) =
              (fun j => as.getD j 0 * bs.getD j 0) :=
          funext (fun j => by simp)
        rw [List.range_succ_eq_map]
        simp only [List.map_cons, List.map_map, List.sum_cons, List.getD_cons_zero, hcomp,
          ih as bs hx1 hy1]
        simp [specDot]

/-- Under the shape invariants of a registered node (`A` is `n × n`, `B` is
`n × m`, state length `n`, input length `m`), the source's
`compute_next_state` computes exactly the spec's clamped `A·h + B·u`. -/
theorem compute_next_state_eq_spec (sv : StateEngine.StateVector) (u : List ℚ)
    (ns : StateEngine.NodeState)
    (hA : ns.transition_matrix.matrix.length = sv.state_data.length)
    (hArows : ∀ row ∈ ns.transition_matrix.matrix, row.length = sv.state_data.length)
    (hB : ns.control_matrix.matrix.length = sv.state_data.length)
    (hBrows : ∀ row ∈ ns.control_matrix.matrix, row.length = u.length) :
    StateEngine.compute_next_state sv u ns =
      specNextState ns.transition_matrix.matrix ns.control_matrix.matrix
        sv.state_data u := by
  have hlen1 : (StateEngine.compute_next_state sv u ns).length = sv.state_data.length := by
    simp [StateEngine.compute_next_state]
  have hlen2 : (specNextState ns.transition_matrix.matrix ns.control_matrix.matrix
      sv.state_data u).length = sv.state_data.length := by
    simp [specNextState, specMatVec, hA, hB]
  apply List.ext_getElem (by rw [hlen1, hlen2])
  intro i h1 h2
  have hi : i < sv.state_data.length := by rwa [hlen1] at h1
  have hiA : i < ns.transition_matrix.matrix.length := by rw [hA]; exact hi
  have hiB : i < ns.control_matrix.matrix.length := by rw [hB]; exact hi
  simp only [StateEngine.compute_next_state, specNextState, specMatVec,
    List.getElem_map, List.getElem_range, List.getElem_zipWith]
  rw [List.getD_eq_getElem _ _ hiA, List.getD_eq_getElem _ _ hiB]
  have hArow : (ns.transition_matrix.matrix[i]).length = sv.state_data.length :=
    hArows _ (List.getElem_mem _)
  have hBrow : (ns.control_matrix.matrix[i]).length = u.length :=
    hBrows _ (List.getElem_mem _)
  have hmapB :
      (List.range u.length).map (fun j =>
        if i < ns.control_matrix.matrix.length ∧
            j < (ns.control_matrix.matrix[i]).length then
          (ns.control_matrix.matrix[i]).getD j 0 * u.getD j 0
        else 0) =
      (List.range u.length).map (fun j =>
        (ns.control_matrix.matrix[i]).getD j 0 * u.getD j 0) :=
    List.map_congr_left (fun j hj => by
      rw [if_pos ⟨hiB, by rw [hBrow]; exact List.mem_range.mp hj⟩])
  rw [hmapB]
  rw [sum_range_getD_eq_specDot sv.state_data.length _ _ hArow rfl,
    sum_range_getD_eq_specDot u.length _ _ hBrow rfl]

/-- The source's `check_convergence` decides exactly the spec's
`max_i |Δ_i| < threshold` (the running maximum of `|prev_i - new_i|`
starting at `0`; `|·|` is symmetric). -/
theorem check_convergence_eq_spec (p q : StateEngine.StateVector) (th : ℚ) :
    StateEngine.check_convergence p q th =
      decide (specMaxAbsDiff p.state_data q.state_data < th) := by
  unfold StateEngine.check_convergence specMaxAbsDiff
  rw [List.foldl_map]

/-! ## C2 -/

/-- C2: `update_state` on a registered node (whose matrices have the
registered shapes) succeeds, and the emitted StateVector's `state_data` is
the spec's clamped `A·h_{t-1} + B·u_t`; exactly that vector is appended to
the history, and it is appended to the immutable ledger exactly when the
maximal componentwise distance between `h_t` and `h_{t-1}` is strictly
below the node's convergence threshold. -/
theorem c2_update_state_behavior (L : StateEngine.StateLedger)
    (ns : StateEngine.NodeState) (node_id : Nat) (u : List ℚ) (sid : Nat) (t : Int)
    (hn : StateEngine.assocLookup node_id L.states = some ns)
    (hA : ns.transition_matrix.matrix.length = ns.current_state.state_data.length)
    (hArows : ∀ row ∈ ns.transition_matrix.matrix,
      row.length = ns.current_state.state_data.length)
    (hB : ns.control_matrix.matrix.length = ns.current_state.state_data.length)
    (hBrows : ∀ row ∈ ns.control_matrix.matrix, row.length = u.length) :
    (∃ p, StateEngine.update_state L node_id u sid t = .ok p) ∧
    ∀ L1 sv, StateEngine.update_state L node_id u sid t = .ok (L1, sv) →
      sv.state_data = specNextState ns.transition_matrix.matrix
        ns.control_matrix.matrix ns.current_state.state_data u ∧
      sv.control_input = u ∧
      L1.state_history = L.state_history ++ [sv] ∧
      (specMaxAbsDiff ns.current_state.state_data sv.state_data <
          ns.convergence_threshold →
        L1.immutable_ledger = L.immutable_ledger ++ [sv]) ∧
      (¬ specMaxAbsDiff ns.current_state.state_data sv.state_data <
          ns.convergence_threshold →
        L1.immutable_ledger = L.immutable_ledger) := by
  constructor
  · cases hrun : StateEngine.update_state L node_id u sid t with
    | error e =>
      exfalso
      unfold StateEngine.update_state at hrun
      rw [hn] at hrun
      exact Except.noConfusion hrun
    | ok p => exact ⟨p, rfl⟩
  · intro L1 sv h
    unfold StateEngine.update_state at h
    rw [hn] at h
    simp only [Except.ok.injEq, Prod.mk.injEq] at h
    obtain ⟨hL1, hsv⟩ := h
    subst hL1
    subst hsv
    refine ⟨?_, rfl, rfl, ?_, ?_⟩
    · exact compute_next_state_eq_spec ns.current_state u ns hA hArows hB hBrows
    · intro hlt
      have hc : StateEngine.check_convergence ns.current_state
          { node_id := node_id, timestamp := t,
            state_data := StateEngine.compute_next_state ns.current_state u ns,
            hidden_state := ns.current_state.hidden_state,
            control_input := u, state_id := sid } ns.convergence_threshold = true := by
        rw [check_convergence_eq_spec]
        exact decide_eq_true hlt
      simp [hc]
    · intro hge
      have hc : StateEngine.check_convergence ns.current_state
          { node_id := node_id, timestamp := t,
            state_data := StateEngine.compute_next_state ns.current_state u ns,
            hidden_state := ns.current_state.hidden_state,
            control_input := u, state_id := sid } ns.convergence_threshold = false := by
        rw [check_convergence_eq_spec]
        exact decide_eq_false hge
      simp [hc]

/-- C2 witness: the theorem at a concrete one-dimensional registered node
and control input. -/
theorem c2_witness :
    StateEngine.wUpdated.2.state_data =
      specNextState StateEngine.wNode.transition_matrix.matrix
        StateEngine.wNode.control_matrix.matrix
        StateEngine.wNode.current_state.state_data [1] ∧
    StateEngine.wUpdated.2.control_input = [1] ∧
    StateEngine.wUpdated.1.state_history =
      StateEngine.wLedger.state_history ++ [StateEngine.wUpdated.2] ∧
    (specMaxAbsDiff StateEngine.wNode.current_state.state_data
        StateEngine.wUpdated.2.state_data < StateEngine.wNode.convergence_threshold →
      StateEngine.wUpdated.1.immutable_ledger =
        StateEngine.wLedger.immutable_ledger ++ [StateEngine.wUpdated.2]) ∧
    (¬ specMaxAbsDiff StateEngine.wNode.current_state.state_data
        StateEngine.wUpdated.2.state_data < StateEngine.wNode.convergence_threshold →
      StateEngine.wUpdated.1.immutable_ledger = StateEngine.wLedger.immutable_ledger) :=
  (c2_update_state_behavior StateEngine.wLedger StateEngine.wNode 0 [1] 1 0 rfl
    (by decide) (by decide) (by decide) (by decide)).2
    StateEngine.wUpdated.1 StateEngine.wUpdated.2 rfl

/-! ## C1 lemmas -/

/-- Updating an existing entry makes lookup return the new value. -/
theorem assocLookup_assocUpdate_self (k : Nat) (v x : StateEngine.NodeState)
    (s : List (Nat × StateEngine.NodeState))
    (h : StateEngine.assocLookup k s = some x) :
    StateEngine.assocLookup k (StateEngine.assocUpdate k v s) = some v := by
  induction s with
  | nil => simp [StateEngine.assocLookup] at h
  | cons p rest ih =>
    obtain ⟨k1, v1⟩ := p
    by_cases hk : k1 = k
    · simp [StateEngine.assocLookup, StateEngine.assocUpdate, hk]
    · simp only [StateEngine.assocLookup, StateEngine.assocUpdate, hk, if_false] at h ⊢
      exact ih h

/-- The `compute_next_state` depends only on the current `state_data`, the
control input and the two matrices. -/
theorem compute_next_state_congr (sv1 sv2 : StateEngine.StateVector) (u : List ℚ)
    (ns1 ns2 : StateEngine.NodeState)
    (hd : sv1.state_data = sv2.state_data)
    (hA : ns1.transition_matrix = ns2.transition_matrix)
    (hB : ns1.control_matrix = ns2.control_matrix) :
    StateEngine.compute_next_state sv1 u ns1 = StateEngine.compute_next_state sv2 u ns2 := by
  unfold StateEngine.compute_next_state
  rw [hd, hA, hB]

/-- Two nodes agreeing on matrices and on the numeric content of their
current state emit, under identical control-input sequences, StateVector
sequences with identical numeric content. -/
theorem runUpdates_core_eq :
    ∀ (evs1 evs2 : List StateEngine.UpdateEvent) (L1 L2 : StateEngine.StateLedger)
      (n1 n2 : Nat) (ns1 ns2 : StateEngine.NodeState),
      StateEngine.assocLookup n1 L1.states = some ns1 →
      StateEngine.assocLookup n2 L2.states = some ns2 →
      ns1.transition_matrix = ns2.transition_matrix →
      ns1.control_matrix = ns2.control_matrix →
      ns1.current_state.state_data = ns2.current_state.state_data →
      ns1.current_state.hidden_state = ns2.current_state.hidden_state →
      evs1.map (·.1) = evs2.map (·.1) →
      (StateEngine.runUpdates L1 n1 evs1).map svCore =
        (StateEngine.runUpdates L2 n2 evs2).map svCore := by
  intro evs1
  induction evs1 with
  | nil =>
    intro evs2 L1 L2 n1 n2 ns1 ns2 h1 h2 hA hB hd hh hmap
    have h0 : evs2.map (·.1) = [] := hmap.symm
    rw [List.map_eq_nil_iff] at h0
    subst h0
    rfl
  | cons e rest ih =>
    intro evs2 L1 L2 n1 n2 ns1 ns2 h1 h2 hA hB hd hh hmap
    obtain ⟨u, sid, t⟩ := e
    cases evs2 with
    | nil => simp at hmap
    | cons e2 rest2 =>
      obtain ⟨u2, sid2, t2⟩ := e2
      simp only [List.map_cons, List.cons.injEq] at hmap
      obtain ⟨hu, hrest⟩ := hmap
      subst hu
      simp only [StateEngine.runUpdates, StateEngine.update_state, h1, h2]
      simp only [List.map_cons]
      have hcomp : StateEngine.compute_next_state ns1.current_state u ns1 =
          StateEngine.compute_next_state ns2.current_state u ns2 :=
        compute_next_state_congr _ _ u _ _ hd hA hB
      congr 1
      · simp [svCore, hcomp, hh]
      · refine ih rest2 _ _ n1 n2
          { ns1 with
            current_state :=
              { node_id := n1, timestamp := t,
                state_data := StateEngine.compute_next_state ns1.current_state u ns1,
                hidden_state := ns1.current_state.hidden_state,
                control_input := u, state_id := sid },
            last_update := t }
          { ns2 with
            current_state :=
              { node_id := n2, timestamp := t2,
                state_data := StateEngine.compute_next_state ns2.current_state u ns2,
                hidden_state := ns2.current_state.hidden_state,
                control_input := u, state_id := sid2 },
            last_update := t2 }
          ?_ ?_ hA hB ?_ ?_ hrest
        · exact assocLookup_assocUpdate_self n1 _ ns1 L1.states h1
        · exact assocLookup_assocUpdate_self n2 _ ns2 L2.states h2
        · exact hcomp
        · exact hh

/-- Looking up a freshly registered node returns its initial state:
matrices derived deterministically from the sizes alone, zero state. -/
theorem assocLookup_register (L : StateEngine.StateLedger) (nt : String)
    (ss isz nid sid : Nat) (now : Int) :
    StateEngine.assocLookup nid
        (StateEngine.register_node L nt ss isz nid sid now).1.states =
      some { node_type := nt,
             current_state :=
               { node_id := nid, timestamp := now,
                 state_data := List.replicate ss 0,
                 hidden_state := List.replicate ss 0,
                 control_input := List.replicate isz 0, state_id := sid },
             transition_matrix := StateEngine.create_deterministic_transition_matrix ss,
             control_matrix := StateEngine.create_control_matrix ss isz,
             last_update := now, convergence_threshold := 1/1000000,
             temperature := 0 } := by
  simp [StateEngine.register_node, StateEngine.assocLookup]

/-! ## C1 -/

/-- C1 counterexample: two fresh managers register a node with identical
`(node_type, state_size, input_size) = ("LEX-VIT", 1, 1)` and are fed the
identical control-input sequence `[[1]]`, yet the emitted StateVector
sequences are not bit-for-bit identical: each instance draws its own
`state_id` UUID (here 10 vs 20), so the `state_id` fields differ. -/
theorem c1_counterexample :
    (StateEngine.runUpdates StateEngine.c1L1 0 StateEngine.c1evs1).map
        (fun sv => sv.control_input) =
      (StateEngine.runUpdates StateEngine.c1L2 0 StateEngine.c1evs2).map
        (fun sv => sv.control_input) ∧
    (StateEngine.runUpdates StateEngine.c1L1 0 StateEngine.c1evs1).map
        (fun sv => sv.state_id) = [10] ∧
    (StateEngine.runUpdates StateEngine.c1L2 0 StateEngine.c1evs2).map
        (fun sv => sv.state_id) = [20] ∧
    StateEngine.runUpdates StateEngine.c1L1 0 StateEngine.c1evs1 ≠
      StateEngine.runUpdates StateEngine.c1L2 0 StateEngine.c1evs2 := by
  refine ⟨rfl, rfl, rfl, fun h => ?_⟩
  have h2 := congrArg (List.map (fun sv => sv.state_id)) h
  exact absurd h2 (by decide)

/-- C1 amended: for two fresh managers registering with identical
`(node_type, state_size, input_size)` and fed identical control-input
sequences, the numeric content of the emitted StateVector sequences —
`state_data`, `hidden_state` and `control_input` — is identical; only the
freshly generated `node_id`/`state_id` UUIDs and the wall-clock timestamps
may differ. -/
theorem c1_numeric_determinism (node_type : String) (state_size input_size : Nat)
    (nid1 nid2 sid1 sid2 : Nat) (t1 t2 : Int)
    (evs1 evs2 : List StateEngine.UpdateEvent)
    (hcontrols : evs1.map (·.1) = evs2.map (·.1)) :
    (StateEngine.runUpdates
        (StateEngine.register_node StateEngine.emptyLedger node_type
          state_size input_size nid1 sid1 t1).1 nid1 evs1).map svCore =
    (StateEngine.runUpdates
        (StateEngine.register_node StateEngine.emptyLedger node_type
          state_size input_size nid2 sid2 t2).1 nid2 evs2).map svCore :=
  runUpdates_core_eq evs1 evs2 _ _ nid1 nid2 _ _
    (assocLookup_register _ _ _ _ _ _ _) (assocLookup_register _ _ _ _ _ _ _)
    rfl rfl rfl rfl hcontrols

/-- C1 witness: the amended determinism theorem at the two concrete
managers of the counterexample. -/
theorem c1_witness :
    (StateEngine.runUpdates StateEngine.c1L1 0 StateEngine.c1evs1).map svCore =
      (StateEngine.runUpdates StateEngine.c1L2 0 StateEngine.c1evs2).map svCore :=
  c1_numeric_determinism "LEX-VIT" 1 1 0 0 100 200 0 0
    StateEngine.c1evs1 StateEngine.c1evs2 rfl

/-! ## C9 lemmas -/

/-- Element-wise decoding inverts element-wise encoding. -/
theorem decList_map {α : Type} (g : Json → Option α) (f : α → Json) (l : List α)
    (h : ∀ a ∈ l, g (f a) = some a) : decList g (l.map f) = some l := by
  induction l with
  | nil => rfl
  | cons a rest ih =>
    have ha := h a (List.mem_cons_self a rest)
    have hrest := ih (fun x hx => h x (List.mem_cons_of_mem a hx))
    simp [decList, ha, hrest]

/-- Decoding a natural encoded as a JSON number. -/
theorem jAsNat_num (n : Nat) : jAsNat (.num (n : ℚ)) = some n := by
  simp [jAsNat]

/-- Decoding an integer encoded as a JSON number. -/
theorem jAsInt_num (i : Int) : jAsInt (.num (i : ℚ)) = some i := by
  simp [jAsInt]

/-- Decoding a rational list encoded as a JSON number array. -/
theorem jAsNumList_arr (l : List ℚ) :
    jAsNumList (.arr (l.map Json.num)) = some l := by
  simp only [jAsNumList]
  exact decList_map jAsNum Json.num l (fun a _ => rfl)

/-- Decoding a matrix encoded as a JSON array of number arrays. -/
theorem jAsMat_arr (m : List (List ℚ)) :
    jAsMat (.arr (m.map (fun row => Json.arr (row.map Json.num)))) = some m := by
  simp only [jAsMat]
  exact decList_map _ _ m (fun r _ => jAsNumList_arr r)

/-- The `decSV` inverts `encSV`. -/
theorem decSV_encSV (sv : StateEngine.StateVector) :
    StateEngine.decSV (StateEngine.encSV sv) = some sv := by
  simp [StateEngine.encSV, StateEngine.decSV, jAsNat_num, jAsInt_num, jAsNumList_arr]

/-- Decoding a string encoded as a JSON string. -/
theorem jAsStr_str (s : String) : jAsStr (.str s) = some s := rfl

/-- Decoding a rational encoded as a JSON number. -/
theorem jAsNum_num (q : ℚ) : jAsNum (.num q) = some q := rfl

/-- The `decTM` inverts the transition-matrix encoding of `encNS`. -/
theorem decTM_enc (tm : StateEngine.TransitionMatrix) :
    StateEngine.decTM (.obj [("matrix", .arr (tm.matrix.map
        (fun row => .arr (row.map Json.num)))), ("size", .num tm.size)]) = some tm := by
  simp [StateEngine.decTM, jAsMat_arr, jAsNat_num]

/-- The `decCM` inverts the control-matrix encoding of `encNS`. -/
theorem decCM_enc (cm : StateEngine.ControlMatrix) :
    StateEngine.decCM (.obj [("matrix", .arr (cm.matrix.map
        (fun row => .arr (row.map Json.num)))), ("input_size", .num cm.input_size),
        ("state_size", .num cm.state_size)]) = some cm := by
  simp [StateEngine.decCM, jAsMat_arr, jAsNat_num]

/-- The `decNS` inverts `encNS`. -/
theorem decNS_encNS (ns : StateEngine.NodeState) :
    StateEngine.decNS (StateEngine.encNS ns) = some ns := by
  simp [StateEngine.encNS, StateEngine.decNS, jAsNat_num, jAsInt_num, jAsStr_str,
    jAsNum_num, decSV_encSV, decTM_enc, decCM_enc]

/-- The `decEntry` inverts `encEntry`. -/
theorem decEntry_encEntry (p : Nat × StateEngine.NodeState) :
    StateEngine.decEntry (StateEngine.encEntry p) = some p := by
  simp [StateEngine.encEntry, StateEngine.decEntry, jAsNat_num, decNS_encNS]

/-- The `load_snapshot` inverts `create_snapshot`: restoring a snapshot
reproduces the ledger exactly. -/
theorem load_snapshot_create_snapshot (L : StateEngine.StateLedger) :
    StateEngine.load_snapshot (StateEngine.create_snapshot L) = some L := by
  simp [StateEngine.create_snapshot, StateEngine.load_snapshot,
    decList_map StateEngine.decEntry StateEngine.encEntry L.states
      (fun p _ => decEntry_encEntry p),
    decList_map StateEngine.decSV StateEngine.encSV L.state_history
      (fun v _ => decSV_encSV v),
    decList_map StateEngine.decSV StateEngine.encSV L.immutable_ledger
      (fun v _ => decSV_encSV v)]

/-! ## C9 -/

/-- C9: restoring the snapshot of a ledger (`load_snapshot ∘
create_snapshot`) succeeds and reproduces the ledger exactly, so every
subsequent `update_state` call — any node, any control input, any generated
id and instant — returns the same result (in particular the same
StateVector) as on the original ledger. -/
theorem c9_snapshot_restore (L : StateEngine.StateLedger) (node_id : Nat)
    (u : List ℚ) (sid : Nat) (t : Int) :
    ∃ L2, StateEngine.load_snapshot (StateEngine.create_snapshot L) = some L2 ∧
      L2 = L ∧
      StateEngine.update_state L2 node_id u sid t =
        StateEngine.update_state L node_id u sid t :=
  ⟨L, load_snapshot_create_snapshot L, rfl, rfl⟩
